import Mathlib

/-!
Shallow embedding of the zwd-admin invitation and report-generation code
(`src/invitation_api.py`, `src/main.py`).

External services (the Supabase auth directory and the OpenRouter completion
endpoint) are modelled as function parameters: the directory is a list of
users plus a delete function, the invite endpoint is a function from the email
and the options payload to an `Except` (exception message or raw response),
and the completion endpoint is a function from the chat message list to an
`Except`. Functions that the Python code calls for their side effect
additionally return the list of calls they issued, so that "never called" and
"called exactly once" properties are statable.
-/

namespace ZwdAdmin

/-- Role mapping from `main.py`: `ROLE_MAPPING = {0: "doctor", 1: "physio", 2: "nurse"}`. -/
def ROLE_MAPPING (n : Int) : Option String :=
  if n = 0 then some "doctor"
  else if n = 1 then some "physio"
  else if n = 2 then some "nurse"
  else none

/-- Embedding of `get_role_name` from `main.py` on the integer path:
`ROLE_MAPPING.get(role_num, f"role_\x7brole\x7d")`. -/
def get_role_name (role : Int) : String :=
  match ROLE_MAPPING role with
  | some name => name
  | none => "role_" ++ toString role

/-- A directory user as seen by this system: id and email. -/
structure DirectoryUser where
  id : String
  email : String
deriving DecidableEq

/-- Result shape returned by `delete_user_by_email` in `invitation_api.py`. -/
structure DeleteResult where
  success : Bool
  message : String
deriving DecidableEq

/-- The loop body of `delete_user_by_email` (`invitation_api.py` lines 48-56):
scan the listed users in order, delete the first one whose email matches
exactly, otherwise fall through to the "not found" failure. The second
component records the ids on which the provider's delete was called. An
exception from the delete call is caught by the surrounding `try` and turned
into the "Error deleting user" failure. -/
def delete_scan (deleteFn : String → Except String Unit) (email : String) :
    List DirectoryUser → DeleteResult × List String
  | [] => (⟨false, "User " ++ email ++ " not found"⟩, [])
  | u :: rest =>
    if u.email = email then
      match deleteFn u.id with
      | .ok _ => (⟨true, "User " ++ email ++ " deleted successfully"⟩, [u.id])
      | .error e => (⟨false, "Error deleting user " ++ email ++ ": " ++ e⟩, [u.id])
    else delete_scan deleteFn email rest

/-- Embedding of `delete_user_by_email` from `invitation_api.py`: list all
users (modelled by the `users` argument, which is what `list_all_users`
returns), then scan for the first exact email match. -/
def delete_user_by_email (users : List DirectoryUser)
    (deleteFn : String → Except String Unit) (email : String) :
    DeleteResult × List String :=
  delete_scan deleteFn email users

/-- The lookup implicit in `delete_user_by_email`'s loop (the spec's
`findUserByEmail`): case-sensitive linear scan, first exact match wins. -/
def find_user_by_email (users : List DirectoryUser) (email : String) :
    Option DirectoryUser :=
  match users with
  | [] => none
  | u :: rest => if u.email = email then some u else find_user_by_email rest email

/-- The options payload sent by `send_invitation` to
`invite_user_by_email`: redirect URL plus the metadata dict
`\x7b"role": role, "invited_by": "admin"\x7d`. -/
structure InviteOptions where
  redirect_to : String
  data_role : Int
  data_invited_by : String
deriving DecidableEq

/-- The fixed application sign-up URL from `invitation_api.py` line 75. -/
def sign_up_url : String := "https://app.zeromedwait.com/auth/sign-up"

/-- Python `redirect_to or default`: `None` and the empty string are falsy. -/
def or_default (redirect_to : Option String) (d : String) : String :=
  match redirect_to with
  | none => d
  | some s => if s = "" then d else s

/-- The options payload built inside `send_invitation`. -/
def invite_options (role : Int) (redirect_to : Option String) : InviteOptions :=
  ⟨or_default redirect_to sign_up_url, role, "admin"⟩

/-- Result shape returned by `send_invitation`: `response` is the raw provider
response, present only on success. -/
structure InviteResult where
  success : Bool
  message : String
  response : Option String
deriving DecidableEq

/-- Embedding of `send_invitation` from `invitation_api.py` (lines 63-85):
one remote call; an exception becomes a failure result carrying the
exception's message, success wraps the raw response. The second component
records the invite calls issued (email and options payload). -/
def send_invitation (provider : String → InviteOptions → Except String String)
    (email : String) (role : Int) (redirect_to : Option String) :
    InviteResult × List (String × InviteOptions) :=
  match provider email (invite_options role redirect_to) with
  | .ok resp =>
      (⟨true, "Invitation sent to " ++ email ++ " with role " ++ toString role,
        some resp⟩, [(email, invite_options role redirect_to)])
  | .error e =>
      (⟨false, "Error sending invitation to " ++ email ++ ": " ++ e, none⟩,
       [(email, invite_options role redirect_to)])

/-- One item of the heterogeneous bulk-invite input (`invitation_api.py`
lines 97-104): a `(email, role)` tuple, a dict with optional `email`/`role`
keys, or any other value, which Python renders with `str(item).strip()`. -/
inductive BulkItem where
  | pair (email : String) (role : Int)
  | record (email : Option String) (role : Option Int)
  | plain (s : String)

/-- Python's `str.strip()`: remove leading and trailing whitespace. -/
def strip (s : String) : String :=
  ⟨((s.data.dropWhile Char.isWhitespace).reverse.dropWhile
      Char.isWhitespace).reverse⟩

/-- The per-item email/role extraction at the top of `bulk_invite`'s loop:
tuples are taken as-is, dicts default the email to `""` and the role to
`default_role`, anything else is stringified, stripped, and given the
default role. -/
def extract_item (default_role : Int) : BulkItem → String × Int
  | .pair e r => (e, r)
  | .record e r => (e.getD "", r.getD default_role)
  | .plain s => (strip s, default_role)

/-- Per-item entry of `bulk_invite`'s `results` list:
`\x7b"email": email, "role": role, **result\x7d`. -/
structure ItemResult where
  email : String
  role : Int
  success : Bool
  message : String
  response : Option String
deriving DecidableEq

/-- The dict merge `\x7b"email": email, "role": role, **result\x7d` around one
`send_invitation` call. -/
def item_result (provider : String → InviteOptions → Except String String)
    (redirect_to : Option String) (email : String) (role : Int) : ItemResult :=
  let r := (send_invitation provider email role redirect_to).1
  ⟨email, role, r.success, r.message, r.response⟩

/-- The loop of `bulk_invite` (lines 97-108): for each item in order, extract
email and role; only non-empty emails are processed (`if email:`), each via
`send_invitation`, accumulating one result per processed item in input
order. -/
def bulk_results (provider : String → InviteOptions → Except String String)
    (default_role : Int) (redirect_to : Option String) :
    List BulkItem → List ItemResult
  | [] => []
  | item :: rest =>
    let p := extract_item default_role item
    if p.1 = "" then bulk_results provider default_role redirect_to rest
    else item_result provider redirect_to p.1 p.2 ::
      bulk_results provider default_role redirect_to rest

/-- The `summary` dict of `bulk_invite`'s return value. -/
structure BulkSummary where
  successful : Nat
  failed : Nat
  total : Nat
deriving DecidableEq

/-- The full return value of `bulk_invite`. -/
structure BulkResult where
  success : Bool
  message : String
  results : List ItemResult
  summary : BulkSummary

/-- Embedding of `bulk_invite` from `invitation_api.py` (lines 87-122), on
the path where a client is available: run the loop, then count successes,
set `failed = len(results) - successful`, `total = len(results)`, and report
`success := failed == 0`. -/
def bulk_invite (provider : String → InviteOptions → Except String String)
    (email_list : List BulkItem) (default_role : Int)
    (redirect_to : Option String) : BulkResult :=
  let results := bulk_results provider default_role redirect_to email_list
  let successful := (results.filter (fun r => r.success)).length
  let failed := results.length - successful
  ⟨failed == 0,
   "Sent " ++ toString successful ++ " invitations successfully, " ++
     toString failed ++ " failed",
   results,
   ⟨successful, failed, results.length⟩⟩

/-- Embedding of the delete-then-invite flow (the "Delete User First, Then
Invite" handler in `main.py` lines 375-397 and `main()` in
`invitation_api.py` lines 124-139): run `delete_user_by_email`, observe its
result, then run `send_invitation` unconditionally. The second component is
the list of invite calls issued. -/
def delete_then_invite (users : List DirectoryUser)
    (deleteFn : String → Except String Unit)
    (provider : String → InviteOptions → Except String String)
    (email : String) (role : Int) (redirect_to : Option String) :
    (DeleteResult × InviteResult) × List (String × InviteOptions) :=
  let d := delete_user_by_email users deleteFn email
  let i := send_invitation provider email role redirect_to
  ((d.1, i.1), i.2)

/-- One chat message of the completion request. -/
structure ChatMsg where
  role : String
  content : String
deriving DecidableEq

/-- The message list built by both `generate_report_with_gpt4o` and
`generate_report_async` in `main.py`: the caller-supplied system prompt and a
user message embedding the transcript. -/
def report_messages (prompt transcript : String) : List ChatMsg :=
  [⟨"system", prompt⟩,
   ⟨"user", "Please analyze the following transcript:\n\n" ++ transcript⟩]

/-- Embedding of `generate_report_with_gpt4o` from `main.py` (lines 55-71):
on success return the generated text, on any exception return
`"Error generating report: "` followed by the exception's message. -/
def generate_report_with_gpt4o
    (complete : List ChatMsg → Except String String)
    (transcript prompt : String) : String :=
  match complete (report_messages prompt transcript) with
  | .ok text => text
  | .error e => "Error generating report: " ++ e

/-- Per-leg result of the parallel fan-out (`main.py` lines 95-100). -/
structure ReportResult where
  role : String
  report : String
deriving DecidableEq

/-- Embedding of `generate_report_async` from `main.py` (lines 75-100): one
completion request; an exception is embedded as error text in this leg's
result, tagged with this leg's role label. -/
def generate_report_async (complete : List ChatMsg → Except String String)
    (transcript prompt_text role : String) : ReportResult :=
  match complete (report_messages prompt_text transcript) with
  | .ok text => ⟨role, text⟩
  | .error e => ⟨role, "Error generating report: " ++ e⟩

/-- Embedding of `run_parallel_generation` from `main.py` (lines 291-301):
one `generate_report_async` task per configured (role, prompt) pair, gathered
in task order by `asyncio.gather`. -/
def run_parallel_generation (complete : List ChatMsg → Except String String)
    (transcript : String) (prompts_by_role : List (String × String)) :
    List ReportResult :=
  prompts_by_role.map (fun rp => generate_report_async complete transcript rp.2 rp.1)

/-! ### Helper lemmas (shared) -/

/-- The second component of `send_invitation` is always a single invite call
with the standard options payload, whatever the provider returns. -/
theorem send_invitation_calls
    (provider : String → InviteOptions → Except String String)
    (email : String) (role : Int) (redirect_to : Option String) :
    (send_invitation provider email role redirect_to).2
      = [(email, invite_options role redirect_to)] := by
  unfold send_invitation
  cases provider email (invite_options role redirect_to) <;> rfl

/-- The role label of a fan-out leg's result is the role the leg was issued
for, in both the success and the error branch. -/
theorem generate_report_async_role
    (complete : List ChatMsg → Except String String)
    (transcript prompt_text role : String) :
    (generate_report_async complete transcript prompt_text role).role = role := by
  unfold generate_report_async
  cases complete (report_messages prompt_text transcript) <;> rfl

/-- Closed form of the `bulk_invite` loop: the results are exactly the
extracted items with non-empty email, in input order, each sent through
`send_invitation`. -/
theorem bulk_results_eq
    (provider : String → InviteOptions → Except String String)
    (default_role : Int) (redirect_to : Option String) (l : List BulkItem) :
    bulk_results provider default_role redirect_to l
      = ((l.map (extract_item default_role)).filter (fun p => !(p.1 == ""))).map
          (fun p => item_result provider redirect_to p.1 p.2) := by
  induction l with
  | nil => rfl
  | cons a t ih =>
    by_cases h : (extract_item default_role a).1 = "" <;>
      simp [bulk_results, List.filter_cons, h, ih]

/-! ### Claim theorems -/

/-- C9: for role codes 0, 1, 2, `get_role_name` returns "doctor", "physio",
"nurse" respectively; for every other integer code it returns the
deterministic fallback `"role_" ++ toString r`, which contains the code. -/
theorem get_role_name_spec (r : Int) :
    get_role_name 0 = "doctor" ∧ get_role_name 1 = "physio" ∧
    get_role_name 2 = "nurse" ∧
    (r ≠ 0 → r ≠ 1 → r ≠ 2 →
      get_role_name r = "role_" ++ toString r ∧
      ∃ p, get_role_name r = p ++ toString r) := by
  refine ⟨rfl, rfl, rfl, fun h0 h1 h2 => ?_⟩
  have hm : ROLE_MAPPING r = none := by simp [ROLE_MAPPING, h0, h1, h2]
  exact ⟨by simp [get_role_name, hm], "role_", by simp [get_role_name, hm]⟩

/-- Witness for C9: the out-of-table code 7 renders as "role_7". -/
theorem get_role_name_spec_witness : get_role_name 7 = "role_7" :=
  (((get_role_name_spec 7).2.2.2 (by decide) (by decide) (by decide)).1).trans rfl

/-- C4: `generate_report_with_gpt4o` never raises: if the completion call
raises, the returned string is exactly the error marker
"Error generating report: " followed by the exception's message; on success
it is the provider's generated text. -/
theorem generate_report_with_gpt4o_spec
    (complete : List ChatMsg → Except String String)
    (transcript prompt : String) :
    (∀ e, complete (report_messages prompt transcript) = .error e →
      generate_report_with_gpt4o complete transcript prompt
        = "Error generating report: " ++ e) ∧
    (∀ text, complete (report_messages prompt transcript) = .ok text →
      generate_report_with_gpt4o complete transcript prompt = text) := by
  constructor
  · intro e he
    simp [generate_report_with_gpt4o, he]
  · intro text ht
    simp [generate_report_with_gpt4o, ht]

/-- Witness for C4: a provider that raises a timeout yields the marked error
string rather than raising. -/
theorem generate_report_with_gpt4o_spec_witness :
    generate_report_with_gpt4o (fun _ => .error "timeout") "t" "p"
      = "Error generating report: timeout" :=
  ((generate_report_with_gpt4o_spec (fun _ => .error "timeout") "t" "p").1
    "timeout" rfl).trans rfl

/-- C8: `send_invitation` sends metadata role = role and
invited_by = "admin", uses the given redirect URL (or the fixed sign-up URL
when unspecified), issues exactly that call; any provider exception becomes a
failure result carrying the exception's message text, never propagated, and
success returns a success result carrying the raw provider response. -/
theorem send_invitation_spec
    (provider : String → InviteOptions → Except String String)
    (email : String) (role : Int) (redirect_to : Option String) :
    (invite_options role redirect_to).data_role = role ∧
    (invite_options role redirect_to).data_invited_by = "admin" ∧
    (redirect_to = none →
      (invite_options role redirect_to).redirect_to = sign_up_url) ∧
    (∀ s, redirect_to = some s → s ≠ "" →
      (invite_options role redirect_to).redirect_to = s) ∧
    (send_invitation provider email role redirect_to).2
      = [(email, invite_options role redirect_to)] ∧
    (∀ e, provider email (invite_options role redirect_to) = .error e →
      (send_invitation provider email role redirect_to).1
        = ⟨false, "Error sending invitation to " ++ email ++ ": " ++ e, none⟩) ∧
    (∀ raw, provider email (invite_options role redirect_to) = .ok raw →
      (send_invitation provider email role redirect_to).1
        = ⟨true, "Invitation sent to " ++ email ++ " with role " ++ toString role,
           some raw⟩) := by
  refine ⟨rfl, rfl, fun hn => ?_, fun s hs hne => ?_, send_invitation_calls _ _ _ _,
    fun e he => ?_, fun raw hr => ?_⟩
  · subst hn; rfl
  · subst hs; simp [invite_options, or_default, hne]
  · simp [send_invitation, he]
  · simp [send_invitation, hr]

/-- Witness for C8: a provider that raises yields a failure result carrying
the exception message. -/
theorem send_invitation_spec_witness :
    (send_invitation (fun _ _ => .error "boom") "a@x.com" 0 none).1
      = ⟨false, "Error sending invitation to a@x.com: boom", none⟩ :=
  ((send_invitation_spec (fun _ _ => .error "boom") "a@x.com" 0 none).2.2.2.2.2.1
    "boom" rfl).trans rfl

/-- C6: the delete-then-invite flow issues exactly one invite call, whatever
the directory contents and whatever the delete outcome; its invite result is
exactly `send_invitation`'s result, and the delete result is observed and
returned alongside without gating the invitation. -/
theorem delete_then_invite_spec (users : List DirectoryUser)
    (deleteFn : String → Except String Unit)
    (provider : String → InviteOptions → Except String String)
    (email : String) (role : Int) (redirect_to : Option String) :
    (delete_then_invite users deleteFn provider email role redirect_to).2
      = [(email, invite_options role redirect_to)] ∧
    (delete_then_invite users deleteFn provider email role redirect_to).1.2
      = (send_invitation provider email role redirect_to).1 ∧
    (delete_then_invite users deleteFn provider email role redirect_to).1.1
      = (delete_user_by_email users deleteFn email).1 :=
  ⟨send_invitation_calls provider email role redirect_to, rfl, rfl⟩

/-- C5: when no listed user matches the email exactly, `delete_user_by_email`
returns a failure-shaped result whose message says the user was not found and
never calls the provider's delete; when a match exists, the first matching
user is deleted (exactly one delete call, on its id) and the delete outcome
is rendered into the returned result. -/
theorem delete_user_by_email_spec (users : List DirectoryUser)
    (deleteFn : String → Except String Unit) (email : String) :
    (find_user_by_email users email = none →
      (delete_user_by_email users deleteFn email).1.success = false ∧
      (delete_user_by_email users deleteFn email).1.message
        = "User " ++ email ++ " not found" ∧
      (delete_user_by_email users deleteFn email).2 = []) ∧
    (∀ u, find_user_by_email users email = some u →
      (delete_user_by_email users deleteFn email).2 = [u.id] ∧
      (delete_user_by_email users deleteFn email).1
        = match deleteFn u.id with
          | .ok _ => ⟨true, "User " ++ email ++ " deleted successfully"⟩
          | .error e => ⟨false, "Error deleting user " ++ email ++ ": " ++ e⟩) := by
  induction users with
  | nil =>
    refine ⟨fun _ => ⟨rfl, rfl, rfl⟩, fun u hu => ?_⟩
    simp [find_user_by_email] at hu
  | cons a t ih =>
    by_cases h : a.email = email
    · refine ⟨fun hn => ?_, fun u hu => ?_⟩
      · simp [find_user_by_email, h] at hn
      · have hu' : u = a := by
          simp [find_user_by_email, h] at hu
          exact hu.symm
        subst hu'
        cases hd : deleteFn u.id with
        | ok v => exact ⟨by simp [delete_user_by_email, delete_scan, h, hd],
            by simp [delete_user_by_email, delete_scan, h, hd]⟩
        | error e => exact ⟨by simp [delete_user_by_email, delete_scan, h, hd],
            by simp [delete_user_by_email, delete_scan, h, hd]⟩
    · have hfind : find_user_by_email (a :: t) email
          = find_user_by_email t email := by
        simp [find_user_by_email, h]
      have hdel : delete_user_by_email (a :: t) deleteFn email
          = delete_user_by_email t deleteFn email := by
        simp [delete_user_by_email, delete_scan, h]
      refine ⟨fun hn => ?_, fun u hu => ?_⟩
      · rw [hfind] at hn
        rw [hdel]
        exact ih.1 hn
      · rw [hfind] at hu
        rw [hdel]
        exact ih.2 u hu

/-- Witness for C5: an empty directory yields the not-found failure with no
delete call. -/
theorem delete_user_by_email_spec_witness :
    (delete_user_by_email [] (fun _ => .ok ()) "a@x.com").1.success = false ∧
    (delete_user_by_email [] (fun _ => .ok ()) "a@x.com").1.message
      = "User a@x.com not found" ∧
    (delete_user_by_email [] (fun _ => .ok ()) "a@x.com").2 = [] := by
  have h := (delete_user_by_email_spec [] (fun _ => .ok ()) "a@x.com").1 rfl
  exact ⟨h.1, h.2.1.trans rfl, h.2.2⟩

/-- C7: the lookup is a case-sensitive linear scan: if no listed user's email
is exactly equal to the query the scan finds nothing, and over any listing in
which the first exact match is `u` (later duplicates allowed), the scan
returns `u` and `delete_user_by_email` deletes exactly `u`. -/
theorem find_user_by_email_first_match (email : String)
    (deleteFn : String → Except String Unit) :
    (∀ users : List DirectoryUser, (∀ v ∈ users, v.email ≠ email) →
      find_user_by_email users email = none) ∧
    (∀ (l1 : List DirectoryUser) (u : DirectoryUser) (l2 : List DirectoryUser),
      (∀ v ∈ l1, v.email ≠ email) → u.email = email →
      find_user_by_email (l1 ++ u :: l2) email = some u ∧
      (delete_user_by_email (l1 ++ u :: l2) deleteFn email).2 = [u.id]) := by
  constructor
  · intro users
    induction users with
    | nil => intro _; rfl
    | cons a t ih =>
      intro hnone
      have ha : a.email ≠ email := hnone a (by simp)
      simp only [find_user_by_email, if_neg ha]
      exact ih fun v hv => hnone v (by simp [hv])
  · intro l1 u l2 hnone hu
    induction l1 with
    | nil =>
      constructor
      · simp [find_user_by_email, hu]
      · rw [List.nil_append]
        cases hd : deleteFn u.id with
        | ok v => simp [delete_user_by_email, delete_scan, hu, hd]
        | error e => simp [delete_user_by_email, delete_scan, hu, hd]
    | cons a t ih =>
      have ha : a.email ≠ email := hnone a (by simp)
      have hrest := ih fun v hv => hnone v (by simp [hv])
      constructor
      · rw [List.cons_append]
        simp only [find_user_by_email, if_neg ha]
        exact hrest.1
      · rw [List.cons_append]
        have hstep : delete_user_by_email (a :: (t ++ u :: l2)) deleteFn email
            = delete_user_by_email (t ++ u :: l2) deleteFn email := by
          simp [delete_user_by_email, delete_scan, ha]
        rw [hstep]
        exact hrest.2

/-- Witness for C7: with two users sharing the same email, the first one in
listing order is found and its id is the one deleted. -/
theorem find_user_by_email_first_match_witness :
    find_user_by_email
        [⟨"id1", "dup@x.com"⟩, ⟨"id2", "dup@x.com"⟩] "dup@x.com"
      = some ⟨"id1", "dup@x.com"⟩ ∧
    (delete_user_by_email [⟨"id1", "dup@x.com"⟩, ⟨"id2", "dup@x.com"⟩]
        (fun _ => .ok ()) "dup@x.com").2 = ["id1"] :=
  (find_user_by_email_first_match "dup@x.com" (fun _ => .ok ())).2
    [] ⟨"id1", "dup@x.com"⟩ [⟨"id2", "dup@x.com"⟩] (by simp) rfl

/-- C3: the fan-out over the configured (roleLabel, promptText) pairs always
returns exactly as many results as pairs, tagged in order by the input role
labels (hence pairwise distinct when the labels are); each leg's result
depends only on the completion behaviour at that leg's own request, so one
leg's failure cannot affect another leg, and a failing leg's result embeds
the error text tagged with that leg's role label. -/
theorem run_parallel_generation_spec
    (complete c2 : List ChatMsg → Except String String) (transcript : String)
    (rps : List (String × String)) (i : Nat) (rp : String × String)
    (hnd : (rps.map Prod.fst).Nodup) (hget : rps[i]? = some rp)
    (hagree : complete (report_messages rp.2 transcript)
      = c2 (report_messages rp.2 transcript)) :
    (run_parallel_generation complete transcript rps).length = rps.length ∧
    (run_parallel_generation complete transcript rps).map ReportResult.role
      = rps.map Prod.fst ∧
    ((run_parallel_generation complete transcript rps).map ReportResult.role).Nodup ∧
    (run_parallel_generation complete transcript rps)[i]?
      = (run_parallel_generation c2 transcript rps)[i]? ∧
    (∀ e, complete (report_messages rp.2 transcript) = .error e →
      (run_parallel_generation complete transcript rps)[i]?
        = some ⟨rp.1, "Error generating report: " ++ e⟩) := by
  have hroles : (run_parallel_generation complete transcript rps).map
      ReportResult.role = rps.map Prod.fst := by
    simp [run_parallel_generation, List.map_map, Function.comp_def,
      generate_report_async_role]
  have hleg : ∀ c : List ChatMsg → Except String String,
      (run_parallel_generation c transcript rps)[i]?
        = some (generate_report_async c transcript rp.2 rp.1) := by
    intro c
    simp [run_parallel_generation, List.getElem?_map, hget]
  refine ⟨by simp [run_parallel_generation], hroles, by rw [hroles]; exact hnd,
    ?_, fun e he => ?_⟩
  · rw [hleg complete, hleg c2]
    unfold generate_report_async
    rw [hagree]
  · rw [hleg complete]
    unfold generate_report_async
    rw [he]

/-- Witness for C3: two configured roles with a completion that always raises
still yield two results, and the first leg embeds the error text under its
own role label. -/
theorem run_parallel_generation_spec_witness :
    (run_parallel_generation (fun _ => .error "quota") "t"
        [("doctor", "p"), ("physio", "q")]).length = 2 ∧
    (run_parallel_generation (fun _ => .error "quota") "t"
        [("doctor", "p"), ("physio", "q")])[0]?
      = some ⟨"doctor", "Error generating report: quota"⟩ := by
  have h := run_parallel_generation_spec (fun _ => .error "quota")
    (fun _ => .error "quota") "t" [("doctor", "p"), ("physio", "q")] 0
    ("doctor", "p") (by decide) rfl rfl
  exact ⟨h.1, (h.2.2.2.2 "quota" rfl).trans rfl⟩

/-- Counting helper: the elements failing a Boolean predicate are the length
minus the elements satisfying it. -/
theorem length_filter_not {α : Type} (p : α → Bool) (l : List α) :
    (l.filter (fun a => !(p a))).length = l.length - (l.filter p).length := by
  induction l with
  | nil => rfl
  | cons a t ih =>
    have hle := List.length_filter_le p t
    cases h : p a with
    | false => simp [List.filter_cons, h, ih]; omega
    | true => simp [List.filter_cons, h, ih]

/-- C1: `bulk_invite` processes exactly the items whose extracted email is
non-empty (a bare value is stripped first, so blank bare values are
skipped), sequentially in input order with one result each; on the input
[a bare "a@x.com", the pair ("b@x.com", 1), a bare ""] with default role 0
it yields exactly the two results (a@x.com, role 0) and (b@x.com, role 1)
and total = 2. -/
theorem bulk_invite_order_and_skip
    (provider : String → InviteOptions → Except String String)
    (default_role : Int) (redirect_to : Option String)
    (email_list : List BulkItem) :
    (bulk_invite provider email_list default_role redirect_to).results
      = ((email_list.map (extract_item default_role)).filter
            (fun p => !(p.1 == ""))).map
          (fun p => item_result provider redirect_to p.1 p.2) ∧
    ((bulk_invite provider
          [.plain "a@x.com", .pair "b@x.com" 1, .plain ""] 0 none).results.map
        (fun r => (r.email, r.role))
      = [("a@x.com", 0), ("b@x.com", 1)] ∧
     (bulk_invite provider
          [.plain "a@x.com", .pair "b@x.com" 1, .plain ""] 0 none).summary.total
       = 2) :=
  ⟨bulk_results_eq provider default_role redirect_to email_list, rfl, rfl⟩

/-- C2: the bulk summary always satisfies successful + failed = total =
len(results); total is the number of submitted items with non-empty
extracted email, i.e. N - K on N items of which K are blank — for every
provider behaviour, so no individual failure stops the aggregate from
covering every non-blank item. -/
theorem bulk_invite_summary_invariant
    (provider : String → InviteOptions → Except String String)
    (default_role : Int) (redirect_to : Option String)
    (email_list : List BulkItem) :
    (bulk_invite provider email_list default_role redirect_to).summary.successful
        + (bulk_invite provider email_list default_role redirect_to).summary.failed
      = (bulk_invite provider email_list default_role redirect_to).summary.total ∧
    (bulk_invite provider email_list default_role redirect_to).summary.total
      = (bulk_invite provider email_list default_role redirect_to).results.length ∧
    (bulk_invite provider email_list default_role redirect_to).summary.total
      = ((email_list.map (extract_item default_role)).filter
          (fun p => !(p.1 == ""))).length ∧
    (bulk_invite provider email_list default_role redirect_to).summary.total
      = email_list.length
        - ((email_list.map (extract_item default_role)).filter
            (fun p => p.1 == "")).length := by
  have hle : ((bulk_results provider default_role redirect_to email_list).filter
        (fun r => r.success)).length
      ≤ (bulk_results provider default_role redirect_to email_list).length :=
    List.length_filter_le _ _
  have h3 : (bulk_results provider default_role redirect_to email_list).length
      = ((email_list.map (extract_item default_role)).filter
          (fun p => !(p.1 == ""))).length := by
    rw [bulk_results_eq]
    simp
  refine ⟨Nat.add_sub_cancel' hle, rfl, h3, ?_⟩
  have h4 := length_filter_not (fun p : String × Int => p.1 == "")
    (email_list.map (extract_item default_role))
  have hlen : (email_list.map (extract_item default_role)).length
      = email_list.length := by simp
  show (bulk_results provider default_role redirect_to email_list).length = _
  omega

/-- C10: the top-level success flag of `bulk_invite` is true exactly when the
failed count is zero, equivalently when every processed item's invitation
succeeded (vacuously true when nothing was processed). -/
theorem bulk_invite_success_iff_no_failures
    (provider : String → InviteOptions → Except String String)
    (default_role : Int) (redirect_to : Option String)
    (email_list : List BulkItem) :
    ((bulk_invite provider email_list default_role redirect_to).success = true
      ↔ (bulk_invite provider email_list default_role redirect_to).summary.failed
          = 0) ∧
    ((bulk_invite provider email_list default_role redirect_to).success = true
      ↔ ∀ r ∈ (bulk_invite provider email_list default_role redirect_to).results,
          r.success = true) := by
  have hle : ((bulk_results provider default_role redirect_to email_list).filter
        (fun r => r.success)).length
      ≤ (bulk_results provider default_role redirect_to email_list).length :=
    List.length_filter_le _ _
  have hflag : (bulk_invite provider email_list default_role redirect_to).success
      = ((bulk_results provider default_role redirect_to email_list).length
          - ((bulk_results provider default_role redirect_to email_list).filter
              (fun r => r.success)).length == 0) := rfl
  constructor
  · rw [hflag, beq_iff_eq]
    exact Iff.rfl
  · rw [hflag, beq_iff_eq]
    show _ ↔ ∀ r ∈ bulk_results provider default_role redirect_to email_list,
        r.success = true
    constructor
    · intro h0
      have hs : ((bulk_results provider default_role redirect_to email_list).filter
            (fun r => r.success)).length
          = (bulk_results provider default_role redirect_to email_list).length :=
        le_antisymm hle (Nat.sub_eq_zero_iff_le.mp h0)
      exact fun r hr => List.filter_length_eq_length.mp hs r hr
    · intro hall
      have hs := (List.filter_length_eq_length
        (p := fun r : ItemResult => r.success)).mpr hall
      omega

end ZwdAdmin
